import Mathlib

/- Verification of the DRPO prompt-orchestration layer: a shallow embedding of
`auto_model.py` (the `AutoModel` orchestrator) and `openai_model.py` (the
hosted-API backend adapter), with theorems settling the specified behaviour of
prompt loading, example retrieval, prompt assembly, and generation dispatch. -/

namespace DRPO

/-- Exceptions raised by the embedded Python code.  `assertionError` models a
failed `assert` (the InvalidArgument condition of the design), `valueError`
models `raise ValueError` (the ConfigError condition for the missing
credential), `typeError` models calling a non-callable object,
`attributeError` a missing attribute, `keyError` a missing dict key,
`indexError` an out-of-range index, and `invalidArgument` the engine-side
rejection of bad sampling parameters. -/
inductive Err where
  | typeError
  | attributeError
  | keyError
  | indexError
  | assertionError (msg : String)
  | valueError (msg : String)
  | invalidArgument
  deriving Repr, DecidableEq

/-- Python value shape for the pickled optimized-prompt artifact, as far as
`_load_optimized_prompt` inspects it: strings, objects with named attributes,
and lists. -/
inductive PyVal where
  | str (s : String)
  | obj (attrs : List (String × PyVal))
  | list (elems : List PyVal)

/-- Attribute lookup on an embedded Python object; `none` models an
AttributeError being raised. -/
def pyGetAttr (v : PyVal) (name : String) : Option PyVal :=
  match v with
  | PyVal.obj attrs => (attrs.find? (fun p => p.1 == name)).map Prod.snd
  | _ => none

/-- Last element of an embedded Python list, modelling the index `[-1]`;
`none` models the IndexError raised on an empty list (a non-list value also
ends in the except branch, via the subsequent attribute failure). -/
def pyLast (v : PyVal) : Option PyVal :=
  match v with
  | PyVal.list elems => elems.getLast?
  | _ => none

/-- Extraction of the nested field
`prompt_file.terminal_node.state[-1].system_prompt` (auto_model.py line 87);
`none` when any step of the chain fails. -/
def extractSystemPrompt (prompt_file : PyVal) : Option PyVal :=
  (pyGetAttr prompt_file "terminal_node").bind fun tn =>
    (pyGetAttr tn "state").bind fun st =>
      (pyLast st).bind fun last => pyGetAttr last "system_prompt"

/-- Embeds the try/except block of `_load_optimized_prompt` (auto_model.py
lines 86-91): try the nested extraction and, on any failure, fall back to the
whole deserialized artifact. -/
def extractModelPrompt (prompt_file : PyVal) : PyVal :=
  match extractSystemPrompt prompt_file with
  | some model_prompt => model_prompt
  | none => prompt_file

/-- Lookup in a Python dict of strings, modelled as an insertion-ordered
association list; `none` models an absent key. -/
def dictGet (d : List (String × String)) (k : String) : Option String :=
  (d.find? (fun p => p.1 == k)).map Prod.snd

/-- Embeds `_load_optimized_prompt` (auto_model.py lines 73-91).  The result
pairs the list of artifact paths opened with the outcome.  When the model name
is unregistered the default prompt is returned and no file is opened.  When it
is registered, line 81 evaluates `self.model_mapping(self.model.model_name)`,
a call on a dict object, which raises TypeError; the artifact store
`artifactAt` is therefore never consulted and the extraction shim
`extractModelPrompt` is never reached on this path. -/
def loadOptimizedPrompt (model_mapping : List (String × String))
    (artifactAt : String → PyVal) (model_name : String) :
    List String × Except Err PyVal :=
  if (dictGet model_mapping model_name).isNone then
    ([], Except.ok (PyVal.str "You are a helpful assistant"))
  else
    ([], Except.error Err.typeError)

/-- Python slice `xs[:k]` for an int `k`: a nonnegative `k` keeps the first
`k` elements, a negative `k` keeps all but the last `-k`. -/
def pySliceTo {α : Type} (xs : List α) (k : Int) : List α :=
  if 0 ≤ k then xs.take k.toNat else xs.take ((xs.length : Int) + k).toNat

/-- Embeds `_compute_icl_query_embeddings` (auto_model.py lines 52-59): one
embedding per example query, in dict insertion order.  The external
sentence-transformer is the function `encode`. -/
def computeIclQueryEmbeddings {Vec : Type} (encode : String → Vec)
    (icl_examples : List (String × String)) : List (String × Vec) :=
  icl_examples.map fun p => (p.1, encode p.1)

/-- Embeds `_get_top_k_icl_examples` (auto_model.py lines 61-71): score every
stored example query by cosine similarity of its stored embedding against the
query embedding, sort in non-increasing similarity order (Python's stable
`sort(reverse=True, key=...)`), and keep the slice `[:k]`.  The embedding
provider and `util.cos_sim` are external collaborators, modelled as function
parameters; similarity scores are rationals. -/
def getTopKIclExamples {Vec : Type} (encode : String → Vec)
    (cos_sim : Vec → Vec → ℚ) (icl_query_embeddings : List (String × Vec))
    (query : String) (k : Int) : List (ℚ × String) :=
  let query_embedding := encode query
  let icl_sims := icl_query_embeddings.map fun p => (cos_sim p.2 query_embedding, p.1)
  pySliceTo (icl_sims.mergeSort fun a b => decide (b.1 ≤ a.1)) k

/-- Chat message: a role/content pair. -/
structure ChatMessage where
  role : String
  content : String
  deriving Repr, DecidableEq

/-- State of a constructed `AutoModel` orchestrator: the fields set in
auto_model.py lines 24-43 that `generate` reads.  `Vec` is the embedding
vector type of the external sentence-transformer.  The backend tokenizer is
modelled by its attribute table (`none` value = Python `None`) together with
its chat-template rendering function. -/
structure AutoModelState (Vec : Type) where
  encode : String → Vec
  cos_sim : Vec → Vec → ℚ
  icl_examples : List (String × String)
  icl_query_embeddings : List (String × Vec)
  open_ai_model : Bool
  optimized_prompt : String
  model_name : String
  tokenizer_attrs : List (String × Option String)
  apply_chat_template : List ChatMessage → String

/-- Tokenizer attribute lookup, `self.model.tokenizer.<name>`: `none` models
an AttributeError, `some none` an attribute whose value is Python `None`. -/
def tokenizerAttr {Vec : Type} (m : AutoModelState Vec) (name : String) :
    Option (Option String) :=
  (m.tokenizer_attrs.find? (fun p => p.1 == name)).map Prod.snd

/-- The block appended to the system prompt for one retrieved in-context
example (auto_model.py line 105). -/
def iclBlock (icl_query answer : String) : String :=
  "\n\n#Query:\n" ++ icl_query ++ "\n\n#Answer:\n" ++ answer

/-- Embeds `_prepare_system_prompt` (auto_model.py lines 93-107): start from
the optimized or default base prompt and, when `optimized_icl` is set, append
one block per retrieved example.  The dict access
`self.icl_examples[icl_query]` raises KeyError on a missing key. -/
def prepareSystemPrompt {Vec : Type} (m : AutoModelState Vec)
    (optimized_prompt optimized_icl : Bool) (num_optimized_icl : Int)
    (user_query : String) : Except Err String :=
  let prompt := if optimized_prompt then m.optimized_prompt else "You are a helpful assistant"
  if optimized_icl then
    let top_icl_queries := getTopKIclExamples m.encode m.cos_sim
      m.icl_query_embeddings user_query num_optimized_icl
    top_icl_queries.foldlM
      (fun acc p =>
        match dictGet m.icl_examples p.2 with
        | some answer => Except.ok (acc ++ iclBlock p.2 answer)
        | none => Except.error Err.keyError)
      prompt
  else
    Except.ok prompt

/-- Embeds `_prepare_chat_llm_prompt` (auto_model.py lines 109-123): a
two-message conversation (system, user) rendered by the backend tokenizer's
chat template. -/
def prepareChatLlmPrompt {Vec : Type} (m : AutoModelState Vec)
    (system_prompt user_prompt : String) : String :=
  m.apply_chat_template
    [ChatMessage.mk "system" system_prompt, ChatMessage.mk "user" user_prompt]

/-- Chat-completion request assembled by `OpenAIChatModel.generate`
(openai_model.py lines 60-71). -/
structure ChatRequest where
  model : String
  messages : List ChatMessage
  temperature : ℚ
  max_tokens : Nat
  top_p : ℚ
  n : Nat
  stop : Option String
  json_response_format : Bool
  seed : Nat
  deriving Repr, DecidableEq

/-- Response of the external chat-completion API: the message content of each
returned choice. -/
structure ChatResponse where
  choices : List String
  deriving Repr, DecidableEq

/-- Value returned by a backend `generate`: a single string when
`num_return_sequences == 1`, else the ordered list of choice contents. -/
inductive GenOut where
  | one (s : String)
  | many (xs : List String)
  deriving Repr, DecidableEq

/-- Embeds the message-construction part of `OpenAIChatModel.generate`
(openai_model.py lines 41-58): the two asserts, the pass-through of a supplied
`messages` sequence, and the build of the conversation from the
(system, user) pair when no sequence is supplied. -/
def OpenAIChatModel.buildMessages (user_prompt system_prompt : Option String)
    (messages : Option (List ChatMessage)) : Except Err (List ChatMessage) :=
  if user_prompt.isNone && messages.isNone then
    Except.error (Err.assertionError "Either give both system_prompt and user_prompt or give messages")
  else
    match messages with
    | some ms => Except.ok ms
    | none =>
      match user_prompt with
      | none => Except.error (Err.assertionError "user_prompt is required if you do not pass messages")
      | some up =>
        match system_prompt with
        | some sp => Except.ok [ChatMessage.mk "system" sp, ChatMessage.mk "user" up]
        | none => Except.ok [ChatMessage.mk "user" up]

/-- Embeds the request assembly of `OpenAIChatModel.generate` (openai_model.py
lines 60-71): sampling parameters are forwarded to the API call unchanged,
with the seed fixed to 0. -/
def OpenAIChatModel.buildRequest (model_name : String)
    (user_prompt system_prompt : Option String)
    (messages : Option (List ChatMessage)) (temperature top_p : ℚ)
    (max_new_tokens : Nat) (stop : Option String) (num_return_sequences : Nat)
    (json_output : Bool) : Except Err ChatRequest :=
  (OpenAIChatModel.buildMessages user_prompt system_prompt messages).map fun ms =>
    ChatRequest.mk model_name ms temperature max_new_tokens top_p
      num_return_sequences stop json_output 0

/-- Embeds `OpenAIChatModel.generate` (openai_model.py lines 28-76).  The
external API is the oracle `client`; the returned pair exposes the request
actually sent.  `response.choices[0]` on an empty choice list raises
IndexError. -/
def OpenAIChatModel.generate (client : ChatRequest → ChatResponse)
    (model_name : String) (user_prompt system_prompt : Option String)
    (messages : Option (List ChatMessage)) (temperature top_p : ℚ)
    (max_new_tokens : Nat) (stop : Option String) (num_return_sequences : Nat)
    (json_output : Bool) : Except Err (ChatRequest × GenOut) :=
  match OpenAIChatModel.buildRequest model_name user_prompt system_prompt
      messages temperature top_p max_new_tokens stop num_return_sequences
      json_output with
  | Except.error e => Except.error e
  | Except.ok req =>
    let response := client req
    if num_return_sequences == 1 then
      match response.choices.head? with
      | some content => Except.ok (req, GenOut.one content)
      | none => Except.error Err.indexError
    else
      Except.ok (req, GenOut.many response.choices)

/-- Constructed state of `OpenAIChatModel.__init__` (openai_model.py lines
7-22): the bound model name, the credential taken from the environment, and
the client timeout. -/
structure OpenAIChatModelState where
  model_name : String
  api_key : String
  timeout : Nat
  deriving Repr, DecidableEq

/-- Embeds `OpenAIChatModel.__init__` (openai_model.py lines 7-22): read
`OPENAI_API_KEY` from the process environment `env`; raise ValueError when it
is absent, otherwise bind the credential and construct the client.
Construction performs no network operation (the client object is created
without contacting the API), so the embedding is pure. -/
def OpenAIChatModel.init (env : String → Option String) (model_name : String)
    (timeout : Nat) : Except Err OpenAIChatModelState :=
  match env "OPENAI_API_KEY" with
  | none => Except.error (Err.valueError "OPENAI_API_KEY not set, please run `export OPENAI_API_KEY=<your key>` to set it")
  | some key => Except.ok (OpenAIChatModelState.mk model_name key timeout)

/-- Request sent to the local vLLM engine by the self-hosted backend. -/
structure VllmRequest where
  prompt : String
  temperature : ℚ
  top_p : ℚ
  max_new_tokens : Nat
  stop : Option String
  deriving Repr, DecidableEq

/-- Modelled from the spec: `vllm_model.py` (the self-hosted backend wrapper)
is not among the sources; per the design (section 4.4), a request with
`temperature < 0` or `top_p` outside `(0, 1]` fails with InvalidArgument (the
engine's sampling-parameter validation), and otherwise generation is delegated
to the wrapped engine, modelled as the oracle `engine`. -/
def VLLMModel.generate (engine : VllmRequest → String) (prompt : String)
    (temperature top_p : ℚ) (max_new_tokens : Nat) (stop : Option String) :
    Except Err String :=
  if temperature < 0 ∨ ¬(0 < top_p ∧ top_p ≤ 1) then
    Except.error Err.invalidArgument
  else
    Except.ok (engine (VllmRequest.mk prompt temperature top_p max_new_tokens stop))

/-- Observable invocation of one of the two backends. -/
inductive BackendCall where
  | vllm (req : VllmRequest)
  | openai (req : ChatRequest)
  deriving Repr, DecidableEq

/-- Embeds `AutoModel.generate` (auto_model.py lines 125-175), with the two
backend oracles made explicit.  The first component of the result lists the
backend calls made; the second is the returned value or the exception raised.
Line 170 reads the tokenizer attribute `chat_tempalte` (sic), not
`chat_template`. -/
def AutoModel.generate {Vec : Type} (m : AutoModelState Vec)
    (engine : VllmRequest → String) (client : ChatRequest → ChatResponse)
    (user_query : String) (optimized_prompt optimized_icl : Bool)
    (num_optimized_icl : Int) (temperature top_p : ℚ) (max_new_tokens : Nat)
    (stop : Option String) : List BackendCall × Except Err GenOut :=
  if optimized_icl ∧ num_optimized_icl ≤ 0 then
    ([], Except.error (Err.assertionError "Number of ICL examples should be > 0"))
  else
    match prepareSystemPrompt m optimized_prompt optimized_icl num_optimized_icl user_query with
    | Except.error e => ([], Except.error e)
    | Except.ok system_prompt =>
      let user_prompt := "# Query:\n" ++ user_query ++ "\n\n# Answer:\n<START>"
      if m.open_ai_model then
        match OpenAIChatModel.generate client m.model_name (some user_prompt)
            (some system_prompt) none temperature top_p max_new_tokens stop 1 false with
        | Except.error e => ([], Except.error e)
        | Except.ok (req, out) => ([BackendCall.openai req], Except.ok out)
      else
        match tokenizerAttr m "chat_tempalte" with
        | none => ([], Except.error Err.attributeError)
        | some chat_template_val =>
          let prompt :=
            if chat_template_val.isSome then
              prepareChatLlmPrompt m system_prompt user_prompt
            else
              system_prompt ++ "\n\n" ++ user_prompt
          match VLLMModel.generate engine prompt temperature top_p max_new_tokens stop with
          | Except.error e => ([], Except.error e)
          | Except.ok text =>
            ([BackendCall.vllm (VllmRequest.mk prompt temperature top_p max_new_tokens stop)],
             Except.ok (GenOut.one text))

/-- Concrete orchestrator state shared by evaluation theorems: a self-hosted
model with two stored examples, whose tokenizer is a standard one (it has a
`chat_template` attribute and no misspelt `chat_tempalte` attribute). -/
def sampleVllmModel : AutoModelState ℚ :=
  AutoModelState.mk (fun s => (s.length : ℚ)) (fun a b => a * b)
    [("alpha", "answer-a"), ("beta", "answer-b")]
    (computeIclQueryEmbeddings (fun s => ((s.length : ℚ)))
      [("alpha", "answer-a"), ("beta", "answer-b")])
    false "optimized base" "local-model"
    [("chat_template", some "default-template")]
    (fun ms => String.join (ms.map fun c => c.role ++ ":\n" ++ c.content))

/-- Artifact of the known nested shape used by witness evaluations. -/
def goodArtifact : PyVal :=
  PyVal.obj [("terminal_node", PyVal.obj [("state",
    PyVal.list [PyVal.obj [("system_prompt", PyVal.str "tuned prompt")]])])]

/-- C1: the claim says that for a registered model identifier the constructor
resolves the optimized prompt by a mapping access and succeeds.  The code
instead invokes the registry dict as a callable
(`self.model_mapping(self.model.model_name)`, auto_model.py line 81), which
raises TypeError for every registered identifier, so construction fails and no
artifact is ever opened.  This theorem evaluates the embedded loader at a
registered identifier. -/
theorem loadOptimizedPrompt_registered_type_error :
    loadOptimizedPrompt [("local-model", "prompts/local-model.pkl")]
      (fun _ => goodArtifact) "local-model" =
      ([], Except.error Err.typeError) := rfl

/-- C8: for every model identifier absent from the registry, the optimized
prompt resolves to the literal default string "You are a helpful assistant"
and no artifact file is read (the list of opened paths is empty). -/
theorem loadOptimizedPrompt_default_when_unregistered
    (model_mapping : List (String × String)) (artifactAt : String → PyVal)
    (model_name : String) (h : dictGet model_mapping model_name = none) :
    loadOptimizedPrompt model_mapping artifactAt model_name =
      ([], Except.ok (PyVal.str "You are a helpful assistant")) := by
  unfold loadOptimizedPrompt
  rw [h]
  rfl

theorem loadOptimizedPrompt_default_when_unregistered_witness :
    loadOptimizedPrompt [("local-model", "prompts/local-model.pkl")]
      (fun _ => goodArtifact) "other-model" =
      ([], Except.ok (PyVal.str "You are a helpful assistant")) :=
  loadOptimizedPrompt_default_when_unregistered _ _ _ rfl

/-- C7: the artifact loader's extraction shim first attempts the nested chain
terminal_node -> state -> last element -> system_prompt, and returns that
field when every step succeeds; on any extraction failure it returns the whole
deserialized artifact instead of raising. -/
theorem extractModelPrompt_fallback (prompt_file : PyVal) :
    (∀ tn st last p,
      pyGetAttr prompt_file "terminal_node" = some tn →
      pyGetAttr tn "state" = some st →
      pyLast st = some last →
      pyGetAttr last "system_prompt" = some p →
      extractModelPrompt prompt_file = p) ∧
    (extractSystemPrompt prompt_file = none →
      extractModelPrompt prompt_file = prompt_file) := by
  constructor
  · intro tn st last p h1 h2 h3 h4
    simp only [extractModelPrompt, extractSystemPrompt, h1, h2, h3, h4, Option.some_bind]
  · intro h
    unfold extractModelPrompt
    rw [h]

theorem extractModelPrompt_fallback_witness :
    extractModelPrompt goodArtifact = PyVal.str "tuned prompt" ∧
    extractModelPrompt (PyVal.str "raw prompt") = PyVal.str "raw prompt" :=
  ⟨(extractModelPrompt_fallback goodArtifact).1 _ _ _ _ rfl rfl rfl rfl,
   (extractModelPrompt_fallback (PyVal.str "raw prompt")).2 rfl⟩

/-- C9: constructing the hosted-API backend with the credential variable
absent from the environment raises the ConfigError condition (a ValueError)
before any network call; with the variable present, construction succeeds and
binds the credential into the client state. -/
theorem openai_init_credential (env : String → Option String)
    (model_name : String) (timeout : Nat) :
    (env "OPENAI_API_KEY" = none →
      OpenAIChatModel.init env model_name timeout =
        Except.error (Err.valueError "OPENAI_API_KEY not set, please run `export OPENAI_API_KEY=<your key>` to set it")) ∧
    (∀ key, env "OPENAI_API_KEY" = some key →
      OpenAIChatModel.init env model_name timeout =
        Except.ok (OpenAIChatModelState.mk model_name key timeout)) := by
  constructor
  · intro h
    unfold OpenAIChatModel.init
    rw [h]
  · intro key h
    unfold OpenAIChatModel.init
    rw [h]

theorem openai_init_credential_witness :
    OpenAIChatModel.init (fun _ => none) "gpt-3.5-turbo" 600 =
      Except.error (Err.valueError "OPENAI_API_KEY not set, please run `export OPENAI_API_KEY=<your key>` to set it") ∧
    OpenAIChatModel.init (fun v => if v == "OPENAI_API_KEY" then some "sk-test" else none)
        "gpt-3.5-turbo" 600 =
      Except.ok (OpenAIChatModelState.mk "gpt-3.5-turbo" "sk-test" 600) :=
  ⟨(openai_init_credential (fun _ => none) "gpt-3.5-turbo" 600).1 rfl,
   (openai_init_credential (fun v => if v == "OPENAI_API_KEY" then some "sk-test" else none)
      "gpt-3.5-turbo" 600).2 "sk-test" rfl⟩

/-- Helper: the slice `[:k]` of a list is a sublist of it, for any int `k`. -/
theorem pySliceTo_sublist {α : Type} (xs : List α) (k : Int) :
    (pySliceTo xs k).Sublist xs := by
  unfold pySliceTo
  split
  · exact List.take_sublist _ _
  · exact List.take_sublist _ _

/-- Helper: every pair returned by the retrieval is the similarity score of a
stored example query against the query embedding, the example being drawn from
the example set the index was built from. -/
theorem topK_mem_spec {Vec : Type} (encode : String → Vec)
    (cos_sim : Vec → Vec → ℚ) (icl_examples : List (String × String))
    (query : String) (k : Int) (p : ℚ × String)
    (hp : p ∈ getTopKIclExamples encode cos_sim
      (computeIclQueryEmbeddings encode icl_examples) query k) :
    ∃ entry ∈ icl_examples,
      p.2 = entry.1 ∧ p.1 = cos_sim (encode entry.1) (encode query) := by
  simp only [getTopKIclExamples, computeIclQueryEmbeddings] at hp
  have hp1 := List.Sublist.mem hp (pySliceTo_sublist _ _)
  have hp2 := (List.mergeSort_perm _ _).mem_iff.mp hp1
  rw [List.map_map] at hp2
  obtain ⟨entry, hentry, hfe⟩ := List.mem_map.mp hp2
  refine ⟨entry, hentry, ?_, ?_⟩
  · rw [← hfe]
    rfl
  · rw [← hfe]
    rfl

/-- Helper: String.join distributes over an appended head, with a generalized
accumulator. -/
theorem string_foldl_append (l : List String) (acc : String) :
    l.foldl (fun r s => r ++ s) acc = acc ++ l.foldl (fun r s => r ++ s) "" := by
  induction l generalizing acc with
  | nil => simp [List.foldl, String.append_empty]
  | cons x xs ih =>
    simp only [List.foldl]
    rw [ih (acc ++ x), ih ("" ++ x), String.empty_append, String.append_assoc]

/-- Helper: String.join of a cons. -/
theorem string_join_cons (s : String) (l : List String) :
    String.join (s :: l) = s ++ String.join l := by
  show (s :: l).foldl (fun r t => r ++ t) "" = s ++ l.foldl (fun r t => r ++ t) ""
  simp only [List.foldl]
  rw [string_foldl_append l ("" ++ s), String.empty_append]

/-- Helper: when every retrieved query has a stored answer, the block-append
loop of `_prepare_system_prompt` succeeds and produces the accumulator
followed by the concatenation of the blocks in list order. -/
theorem foldlM_icl_blocks (ex : List (String × String)) (l : List (ℚ × String))
    (acc : String) (h : ∀ p ∈ l, (dictGet ex p.2).isSome) :
    List.foldlM
      (fun acc p =>
        match dictGet ex p.2 with
        | some answer => Except.ok (acc ++ iclBlock p.2 answer)
        | none => Except.error Err.keyError)
      acc l =
    (Except.ok (acc ++ String.join (l.map fun p => iclBlock p.2 ((dictGet ex p.2).getD "")))
      : Except Err String) := by
  induction l generalizing acc with
  | nil =>
    show (pure acc : Except Err String) =
      Except.ok (acc ++ String.join
        (List.map (fun p : ℚ × String => iclBlock p.2 ((dictGet ex p.2).getD "")) []))
    rw [List.map_nil]
    show Except.ok acc = Except.ok (acc ++ "")
    rw [String.append_empty]
  | cons hd tl ih =>
    obtain ⟨a, ha⟩ := Option.isSome_iff_exists.mp (h hd (List.mem_cons_self hd tl))
    simp only [List.foldlM, ha]
    show List.foldlM
        (fun acc p =>
          match dictGet ex p.2 with
          | some answer => Except.ok (acc ++ iclBlock p.2 answer)
          | none => Except.error Err.keyError)
        (acc ++ iclBlock hd.2 a) tl =
      Except.ok (acc ++ String.join
        (List.map (fun p => iclBlock p.2 ((dictGet ex p.2).getD "")) (hd :: tl)))
    rw [ih (acc ++ iclBlock hd.2 a) (fun p hp => h p (List.mem_cons_of_mem hd hp))]
    rw [List.map_cons, string_join_cons, ha, Option.getD_some, String.append_assoc]

/-- C5: for every query, every k >= 1 and every nonempty example set, the
top-k retrieval over the index built from that example set returns exactly
min(k, number of examples) pairs, sorted by non-increasing similarity, each
pair being (cosine similarity of the stored example's embedding against the
query's embedding, example query). -/
theorem topK_retrieval_spec {Vec : Type} (encode : String → Vec)
    (cos_sim : Vec → Vec → ℚ) (icl_examples : List (String × String))
    (query : String) (k : Int) (hk : 1 ≤ k) (hne : icl_examples ≠ []) :
    (getTopKIclExamples encode cos_sim
        (computeIclQueryEmbeddings encode icl_examples) query k).length =
      min k.toNat icl_examples.length ∧
    List.Pairwise (fun a b : ℚ × String => b.1 ≤ a.1)
      (getTopKIclExamples encode cos_sim
        (computeIclQueryEmbeddings encode icl_examples) query k) ∧
    ∀ p ∈ getTopKIclExamples encode cos_sim
        (computeIclQueryEmbeddings encode icl_examples) query k,
      ∃ entry ∈ icl_examples,
        p.2 = entry.1 ∧ p.1 = cos_sim (encode entry.1) (encode query) := by
  have hk0 : (0 : Int) ≤ k := le_trans (by norm_num) hk
  refine ⟨?_, ?_, fun p hp => topK_mem_spec encode cos_sim icl_examples query k p hp⟩
  · simp only [getTopKIclExamples, computeIclQueryEmbeddings, pySliceTo, if_pos hk0]
    rw [List.length_take, List.length_mergeSort, List.length_map, List.length_map]
  · have htrans : ∀ a b c : ℚ × String, decide (b.1 ≤ a.1) = true →
        decide (c.1 ≤ b.1) = true → decide (c.1 ≤ a.1) = true := by
      intro a b c hab hbc
      rw [decide_eq_true_eq] at hab hbc ⊢
      exact le_trans hbc hab
    have htot : ∀ a b : ℚ × String,
        (decide (b.1 ≤ a.1) || decide (a.1 ≤ b.1)) = true := by
      intro a b
      rw [Bool.or_eq_true, decide_eq_true_eq, decide_eq_true_eq]
      exact le_total b.1 a.1
    have hs := List.sorted_mergeSort htrans htot
      ((computeIclQueryEmbeddings encode icl_examples).map
        fun p => (cos_sim p.2 (encode query), p.1))
    have hs' : List.Pairwise (fun a b : ℚ × String => b.1 ≤ a.1)
        (((computeIclQueryEmbeddings encode icl_examples).map
          fun p => (cos_sim p.2 (encode query), p.1)).mergeSort
            fun a b => decide (b.1 ≤ a.1)) :=
      hs.imp fun h => of_decide_eq_true h
    simp only [getTopKIclExamples]
    exact List.Pairwise.sublist (pySliceTo_sublist _ _) hs'

theorem topK_retrieval_spec_witness :
    (getTopKIclExamples (fun s : String => (s.length : ℚ)) (fun a b => a * b)
        (computeIclQueryEmbeddings (fun s : String => (s.length : ℚ))
          [("alpha", "answer-a"), ("beta", "answer-b")]) "q" 1).length =
      min (1 : Int).toNat
        ([("alpha", "answer-a"), ("beta", "answer-b")] : List (String × String)).length ∧
    List.Pairwise (fun a b : ℚ × String => b.1 ≤ a.1)
      (getTopKIclExamples (fun s : String => (s.length : ℚ)) (fun a b => a * b)
        (computeIclQueryEmbeddings (fun s : String => (s.length : ℚ))
          [("alpha", "answer-a"), ("beta", "answer-b")]) "q" 1) :=
  ⟨(topK_retrieval_spec (fun s : String => (s.length : ℚ)) (fun a b => a * b)
      [("alpha", "answer-a"), ("beta", "answer-b")] "q" 1 (by decide) (by decide)).1,
   (topK_retrieval_spec (fun s : String => (s.length : ℚ)) (fun a b => a * b)
      [("alpha", "answer-a"), ("beta", "answer-b")] "q" 1 (by decide) (by decide)).2.1⟩

/-- C6: on a state whose embedding index was built from the example set (the
construction invariant of `AutoModel.__init__`), a `generate`-style prompt
assembly with the `optimized_icl` flag set produces the base prompt followed
by exactly one block per retrieved example, in retrieval order, each block
being the literal template around the example's stored query and answer. -/
theorem prepareSystemPrompt_appends_blocks {Vec : Type} (m : AutoModelState Vec)
    (hinv : m.icl_query_embeddings = computeIclQueryEmbeddings m.encode m.icl_examples)
    (optimized_prompt : Bool) (num_optimized_icl : Int) (user_query : String) :
    prepareSystemPrompt m optimized_prompt true num_optimized_icl user_query =
      Except.ok
        ((if optimized_prompt then m.optimized_prompt else "You are a helpful assistant") ++
          String.join
            ((getTopKIclExamples m.encode m.cos_sim m.icl_query_embeddings
                user_query num_optimized_icl).map
              fun p => iclBlock p.2 ((dictGet m.icl_examples p.2).getD ""))) ∧
    ∀ p ∈ getTopKIclExamples m.encode m.cos_sim m.icl_query_embeddings
        user_query num_optimized_icl,
      ∃ answer, dictGet m.icl_examples p.2 = some answer ∧
        (p.2, answer) ∈ m.icl_examples := by
  have hkeys : ∀ p ∈ getTopKIclExamples m.encode m.cos_sim m.icl_query_embeddings
      user_query num_optimized_icl,
      ∃ answer, dictGet m.icl_examples p.2 = some answer ∧
        (p.2, answer) ∈ m.icl_examples := by
    intro p hp
    rw [hinv] at hp
    obtain ⟨entry, hentry, hp2, _⟩ :=
      topK_mem_spec m.encode m.cos_sim m.icl_examples user_query num_optimized_icl p hp
    have hsome : (m.icl_examples.find? (fun q => q.1 == p.2)).isSome := by
      rw [List.find?_isSome]
      exact ⟨entry, hentry, by rw [hp2]; exact beq_self_eq_true entry.1⟩
    obtain ⟨pr, hpr⟩ := Option.isSome_iff_exists.mp hsome
    have hprmem := List.mem_of_find?_eq_some hpr
    have hpr1 : pr.1 = p.2 := by
      have := List.find?_some hpr
      exact eq_of_beq this
    refine ⟨pr.2, ?_, ?_⟩
    · unfold dictGet
      rw [hpr]
      rfl
    · rw [← hpr1, Prod.mk.eta]
      exact hprmem
  refine ⟨?_, hkeys⟩
  unfold prepareSystemPrompt
  simp only [if_true]
  rw [foldlM_icl_blocks m.icl_examples _ _
    (fun p hp => by obtain ⟨a, ha, _⟩ := hkeys p hp; rw [ha]; rfl)]

theorem prepareSystemPrompt_appends_blocks_witness :
    prepareSystemPrompt sampleVllmModel true true 2 "q" =
      Except.ok
        ("optimized base" ++
          String.join
            ((getTopKIclExamples sampleVllmModel.encode sampleVllmModel.cos_sim
                sampleVllmModel.icl_query_embeddings "q" 2).map
              fun p => iclBlock p.2 ((dictGet sampleVllmModel.icl_examples p.2).getD ""))) :=
  (prepareSystemPrompt_appends_blocks sampleVllmModel rfl true 2 "q").1

/-- C2: the claim says the self-hosted path branches on whether the backend's
tokenizer exposes a chat template.  The code branches on the misspelt
attribute `chat_tempalte` (auto_model.py line 170); a standard tokenizer has a
`chat_template` attribute and no `chat_tempalte` attribute, so the lookup
raises AttributeError and neither the structured two-message path nor the
plain-concatenation fallback executes.  This theorem evaluates the embedded
`generate` on such a tokenizer: it fails with AttributeError and makes no
backend call. -/
theorem generate_chat_tempalte_attribute_error :
    AutoModel.generate sampleVllmModel (fun r => r.prompt)
      (fun _ => ChatResponse.mk ["completion"]) "hi" true false 3 1 1 16 none =
      ([], Except.error Err.attributeError) := rfl

/-- C4: a `generate` call with `optimized_icl` requested and
`num_optimized_icl <= 0` fails with the InvalidArgument condition (the failed
assert of auto_model.py lines 154-155) and the list of backend calls made is
empty. -/
theorem generate_icl_guard_no_backend_call {Vec : Type} (m : AutoModelState Vec)
    (engine : VllmRequest → String) (client : ChatRequest → ChatResponse)
    (user_query : String) (optimized_prompt : Bool) (num_optimized_icl : Int)
    (temperature top_p : ℚ) (max_new_tokens : Nat) (stop : Option String)
    (h : num_optimized_icl ≤ 0) :
    AutoModel.generate m engine client user_query optimized_prompt true
      num_optimized_icl temperature top_p max_new_tokens stop =
      ([], Except.error (Err.assertionError "Number of ICL examples should be > 0")) := by
  unfold AutoModel.generate
  rw [if_pos ⟨rfl, h⟩]

theorem generate_icl_guard_no_backend_call_witness :
    AutoModel.generate sampleVllmModel (fun r => r.prompt)
      (fun _ => ChatResponse.mk ["completion"]) "hi" true true 0 1 1 16 none =
      ([], Except.error (Err.assertionError "Number of ICL examples should be > 0")) :=
  generate_icl_guard_no_backend_call sampleVllmModel (fun r => r.prompt)
    (fun _ => ChatResponse.mk ["completion"]) "hi" true 0 1 1 16 none (by decide)

/-- C3 counterexample: the claim says every request with `temperature < 0` or
`top_p` outside `(0, 1]` fails with InvalidArgument on both backend variants.
The hosted-API adapter performs no sampling-parameter validation: with
`temperature = -1` it builds the request, forwards it to the API client
unchanged, and returns the completion, so the call does not fail. -/
theorem openai_generate_accepts_negative_temperature :
    OpenAIChatModel.generate (fun _ => ChatResponse.mk ["completion"]) "gpt-4"
      (some "user turn") (some "system turn") none (-1) 1 512 none 1 false =
      Except.ok
        (ChatRequest.mk "gpt-4"
          [ChatMessage.mk "system" "system turn", ChatMessage.mk "user" "user turn"]
          (-1) 512 1 1 none false 0,
         GenOut.one "completion") := rfl

/-- C3 (amended): only the self-hosted variant rejects bad sampling
parameters — its engine-side validation (modelled from the spec, since
vllm_model.py is not among the sources) fails with InvalidArgument whenever
`temperature < 0` or `top_p` lies outside `(0, 1]` — while the hosted-API
variant performs no local validation and forwards `temperature` and `top_p`
to the external API unchanged. -/
theorem sampling_params_validated_by_vllm_only (temperature top_p : ℚ)
    (h : temperature < 0 ∨ ¬(0 < top_p ∧ top_p ≤ 1)) :
    (∀ (engine : VllmRequest → String) (prompt : String) (max_new_tokens : Nat)
        (stop : Option String),
      VLLMModel.generate engine prompt temperature top_p max_new_tokens stop =
        Except.error Err.invalidArgument) ∧
    (∀ (model_name : String) (up sp : Option String)
        (ms : Option (List ChatMessage)) (max_new_tokens : Nat)
        (stop : Option String) (n : Nat) (j : Bool) (req : ChatRequest),
      OpenAIChatModel.buildRequest model_name up sp ms temperature top_p
          max_new_tokens stop n j = Except.ok req →
      req.temperature = temperature ∧ req.top_p = top_p) := by
  constructor
  · intro engine prompt max_new_tokens stop
    unfold VLLMModel.generate
    rw [if_pos h]
  · intro model_name up sp ms max_new_tokens stop n j req hreq
    unfold OpenAIChatModel.buildRequest at hreq
    cases hmsg : OpenAIChatModel.buildMessages up sp ms with
    | error e =>
      rw [hmsg] at hreq
      cases hreq
    | ok msgs =>
      rw [hmsg] at hreq
      cases hreq
      exact ⟨rfl, rfl⟩

theorem sampling_params_validated_by_vllm_only_witness :
    VLLMModel.generate (fun r => r.prompt) "p" (-1) 1 16 none =
      Except.error Err.invalidArgument ∧
    ((ChatRequest.mk "gpt-4" [ChatMessage.mk "user" "u"] (-1) 16 1 1 none false 0).temperature = -1 ∧
     (ChatRequest.mk "gpt-4" [ChatMessage.mk "user" "u"] (-1) 16 1 1 none false 0).top_p = 1) :=
  ⟨(sampling_params_validated_by_vllm_only (-1) 1 (Or.inl (by norm_num))).1
      (fun r => r.prompt) "p" 16 none,
   (sampling_params_validated_by_vllm_only (-1) 1 (Or.inl (by norm_num))).2
      "gpt-4" (some "u") none none 16 none 1 false
      (ChatRequest.mk "gpt-4" [ChatMessage.mk "user" "u"] (-1) 16 1 1 none false 0) rfl⟩

/-- C10: when the hosted-API `generate` is handed a pre-built `messages`
sequence, the outcome is independent of `user_prompt` and `system_prompt`
(they are ignored), and the request sent to the API carries exactly the
supplied sequence. -/
theorem openai_generate_messages_passthrough
    (client : ChatRequest → ChatResponse) (model_name : String)
    (up up' sp sp' : Option String) (ms : List ChatMessage)
    (temperature top_p : ℚ) (max_new_tokens : Nat) (stop : Option String)
    (n : Nat) (j : Bool) :
    OpenAIChatModel.generate client model_name up sp (some ms) temperature
        top_p max_new_tokens stop n j =
      OpenAIChatModel.generate client model_name up' sp' (some ms) temperature
        top_p max_new_tokens stop n j ∧
    (∀ req out,
      OpenAIChatModel.generate client model_name up sp (some ms) temperature
          top_p max_new_tokens stop n j = Except.ok (req, out) →
      req.messages = ms) := by
  have hbm : ∀ u s : Option String,
      OpenAIChatModel.buildMessages u s (some ms) = Except.ok ms := by
    intro u s
    unfold OpenAIChatModel.buildMessages
    simp
  constructor
  · unfold OpenAIChatModel.generate OpenAIChatModel.buildRequest
    rw [hbm up sp, hbm up' sp']
  · intro req out hreq
    unfold OpenAIChatModel.generate OpenAIChatModel.buildRequest at hreq
    rw [hbm up sp] at hreq
    simp only [Except.map] at hreq
    split at hreq
    · split at hreq
      · cases hreq
        rfl
      · cases hreq
    · cases hreq
      rfl

theorem openai_generate_messages_passthrough_witness :
    OpenAIChatModel.generate (fun _ => ChatResponse.mk ["ok"]) "gpt-3.5-turbo"
        (some "u") (some "s") (some [ChatMessage.mk "user" "m"]) 0 1 512 none 1 false =
      OpenAIChatModel.generate (fun _ => ChatResponse.mk ["ok"]) "gpt-3.5-turbo"
        none none (some [ChatMessage.mk "user" "m"]) 0 1 512 none 1 false ∧
    (ChatRequest.mk "gpt-3.5-turbo" [ChatMessage.mk "user" "m"] 0 512 1 1 none false 0).messages =
      [ChatMessage.mk "user" "m"] :=
  ⟨(openai_generate_messages_passthrough (fun _ => ChatResponse.mk ["ok"])
      "gpt-3.5-turbo" (some "u") none (some "s") none [ChatMessage.mk "user" "m"]
      0 1 512 none 1 false).1,
   (openai_generate_messages_passthrough (fun _ => ChatResponse.mk ["ok"])
      "gpt-3.5-turbo" (some "u") none (some "s") none [ChatMessage.mk "user" "m"]
      0 1 512 none 1 false).2
      (ChatRequest.mk "gpt-3.5-turbo" [ChatMessage.mk "user" "m"] 0 512 1 1 none false 0)
      (GenOut.one "ok") rfl⟩

end DRPO
